import Mathlib

set_option autoImplicit false

/-!
Shallow embedding of the North Park Leaflet map (`src/main.js`, `src/config.js`):
the label-override CSV pipeline, the per-overlay labeling logic
(`labelTextFor`, `updateLabels`, `refreshLabels`), the contrast-profile
switching (`applyContrastProfile`, `currentProfile`, `syncImageryRefs`), and
the static-GeoJSON context-overlay path (`addContextCPAOverlayAsGeoJSON`).

Conventions of the embedding:
- JavaScript strings are Lean `String`s; `null`/`undefined` string values are
  `Option.none`.
- A JS object used as a string-keyed dictionary is a function
  `String → Option String` built by repeated overwriting insertion.
- Numbers appearing in styles and zoom levels are rationals (`ℚ`).
- The DOM/Leaflet side is reduced to the data the code reads and writes:
  tooltip content and open/closed state, path-style fields set via
  `setStyle`, and which layers are on the map (booleans).
-/

namespace NorthPark

/-- Characters matched by the JavaScript regex class `\s` (restricted to the
ASCII range used by this repository, which keeps all files ASCII-only). -/
def isJsWs (c : Char) : Bool :=
  c = ' ' ∨ c = '\t' ∨ c = '\n' ∨ c = '\r' ∨ c = '\x0b' ∨ c = '\x0c'

/-- JavaScript `String.prototype.trim()`: drop leading and trailing `\s`. -/
def jsTrim (s : String) : String :=
  ⟨((s.data.dropWhile isJsWs).reverse.dropWhile isJsWs).reverse⟩

/-- JavaScript `String.prototype.toUpperCase()` on ASCII data. -/
def jsUpper (s : String) : String :=
  ⟨s.data.map Char.toUpper⟩

/-- Scanner for `String(override).replace(/\s*\|\s*/g, "\n")` (main.js 487,
653).  The first argument records whether we are just past a replaced `|`
(so following whitespace belongs to the match's trailing `\s*`); the second
buffers a pending whitespace run (reversed) that will be dropped if a `|`
follows it (leading `\s*` of a match) and emitted otherwise. -/
def replPipesAux : Bool → List Char → List Char → List Char
  | _, buf, [] => buf.reverse
  | _, _, '|' :: cs => '\n' :: replPipesAux true [] cs
  | afterPipe, buf, c :: cs =>
    if isJsWs c then
      if afterPipe then replPipesAux true buf cs
      else replPipesAux false (c :: buf) cs
    else buf.reverse ++ c :: replPipesAux false [] cs

/-- JavaScript `s.replace(/\s*\|\s*/g, "\n")`: every `|`, together with the
whitespace run immediately before and after it, becomes one newline. -/
def replPipes (s : String) : String :=
  ⟨replPipesAux false [] s.data⟩

/-- JavaScript `text.split(/\r?\n/)` (main.js 841): break at `\n` or `\r\n`;
a lone `\r` is ordinary content. -/
def splitLinesAux : List Char → List Char → List String
  | acc, [] => [⟨acc.reverse⟩]
  | acc, '\r' :: '\n' :: cs => ⟨acc.reverse⟩ :: splitLinesAux [] cs
  | acc, '\n' :: cs => ⟨acc.reverse⟩ :: splitLinesAux [] cs
  | acc, c :: cs => splitLinesAux (c :: acc) cs

/-- Split a string into lines the way `split(/\r?\n/)` does. -/
def splitLines (s : String) : List String :=
  splitLinesAux [] s.data

/-- Characters matched by the JavaScript LineTerminator production, which
`.` (without the `s` flag) excludes: `\n`, `\r`, U+2028 and U+2029. -/
def isJsLineTerm (c : Char) : Bool :=
  c = '\n' ∨ c = '\r' ∨ c = '\u2028' ∨ c = '\u2029'

/-- First-comma split on terminator-free character data: the lazy group
`(.*?)` stops at the first comma; no comma, no match. -/
def splitFirstCommaAux : List Char → List Char → Option (String × String)
  | _, [] => none
  | acc, ',' :: cs => some (⟨acc.reverse⟩, ⟨cs⟩)
  | acc, c :: cs => splitFirstCommaAux (c :: acc) cs

/-- JavaScript `line.match(/^(.*?),(.*)$/)` (main.js 850).  Because `.`
does not match a line terminator, both groups must be terminator-free; any
comma decomposition of a line containing a terminator puts that terminator
into one of the two groups, so such a line never matches at all — in
particular a line with an embedded lone `\r` (which `split(/\r?\n/)` leaves
in place) is skipped.  Otherwise the lazy first group stops at the first
comma. -/
def splitFirstComma (s : String) : Option (String × String) :=
  if s.data.any isJsLineTerm then none
  else splitFirstCommaAux [] s.data

/-- The label-override dictionary (`window.CPA_LABEL_OVERRIDES`): a JS object
keyed by uppercased plan names. -/
abbrev OvMap := String → Option String

/-- The empty dictionary `Object.create(null)`. -/
def ovEmpty : OvMap :=
  fun _ => none

/-- JS property assignment `m[k] = v`: overwrites any previous binding. -/
def ovInsert (m : OvMap) (k v : String) : OvMap :=
  fun q => if q = k then some v else m q

/-- Loop body of the CSV row loop (main.js 848-856): split at the first
comma, trim both fields, skip empty keys; the produced entry is the
uppercased trimmed key together with the trimmed raw value. -/
def rowEntry (line : String) : Option (String × String) :=
  match splitFirstComma line with
  | none => none
  | some (k, v) =>
    let rawKey := jsTrim k
    let rawVal := jsTrim v
    if rawKey = "" then none else some (jsUpper rawKey, rawVal)

/-- Fold the row loop over a list of data rows, starting from a given
dictionary (main.js 847-856). -/
def parseRowsFrom (m : OvMap) (rows : List String) : OvMap :=
  rows.foldl
    (fun acc line =>
      match rowEntry line with
      | none => acc
      | some kv => ovInsert acc kv.1 kv.2)
    m

/-- The override dictionary built from the data rows of the CSV. -/
def parseRows (rows : List String) : OvMap :=
  parseRowsFrom ovEmpty rows

/-- The whole CSV parse from the bootstrap `fetch` chain (main.js 840-857):
trim the text, split into lines, shift off the header (only loosely
validated, for a console warning we do not model), then run the row loop. -/
def parseOverridesCSV (text : String) : OvMap :=
  parseRows (splitLines (jsTrim text)).tail

/-! ### Overlay configuration and label resolution -/

/-- A feature's `properties` object: string-valued attributes, `none` for a
missing or null property. -/
abbrev PropMap := String → Option String

/-- The `label` rule of a config entry (`config.js` typedef:
`{prop?, text?, minZoom?, skipValues?}`). -/
structure LabelRule where
  prop : Option String := none
  text : Option String := none
  minZoom : Option ℚ := none
  skipValues : Option (List String) := none

/-- The parts of a config `OverlayEntry` that the labeling and contrast code
reads: `id`, `name`, and the label rule. -/
structure OverlayEntry where
  id : String
  name : Option String := none
  label : Option LabelRule := none

/-- Truthiness of a JS string value: `undefined`/`null` and `""` are falsy. -/
def strTruthy : Option String → Bool
  | none => false
  | some s => s ≠ ""

/-- JS `x || "cpname"` applied to an optional property name (main.js 478,
647): an absent or empty `prop` falls back to `"cpname"`. -/
def propOrCpname (o : Option String) : String :=
  match o with
  | some p => if p = "" then "cpname" else p
  | none => "cpname"

/-- The CSV-override block shared by both `labelTextFor` variants (main.js
482-489 and 648-655): with the override dictionary present, look up the
uppercased attribute value; a non-null, non-empty override is returned with
every `|` (and surrounding whitespace) replaced by a newline. -/
def overrideResult (ov : Option OvMap) (fp : PropMap) (prop : String) :
    Option String :=
  match ov with
  | some m =>
    let key := jsUpper ((fp prop).getD "")
    match m key with
    | some o => if o = "" then none else some (replPipes o)
    | none => none
  | none => none

/-- Fallback chain of the FeatureServer `labelTextFor` (main.js 491-494):
attribute value named by the rule, then the rule's fixed text, then the
overlay display name (with `entry.name || null` semantics). -/
def labelFallback (entry : OverlayEntry) (fp : PropMap) : Option String :=
  let labelCfg := entry.label
  let prop := propOrCpname (labelCfg.bind (·.prop))
  if strTruthy (labelCfg.bind (·.prop)) && (fp prop).isSome then
    some ((fp prop).getD "")
  else if strTruthy (labelCfg.bind (·.text)) then
    some ((labelCfg.bind (·.text)).getD "")
  else
    match entry.name with
    | some n => if n = "" then none else some n
    | none => none

/-- The `labelTextFor` of `addFeatureServerOverlay` (main.js 477-495): CSV
overrides apply only when `entry.id === "cpas-context"` and the override
dictionary is set; otherwise the fallback chain runs. -/
def labelTextForFS (entry : OverlayEntry) (ov : Option OvMap) (fp : PropMap) :
    Option String :=
  let prop := propOrCpname (entry.label.bind (·.prop))
  match (if entry.id = "cpas-context" then overrideResult ov fp prop else none) with
  | some r => some r
  | none => labelFallback entry fp

/-- The `labelTextFor` of `addContextCPAOverlayAsGeoJSON` (main.js 646-657):
overrides whenever the dictionary is set, then
`props?.[prop] ?? entry.name ?? null` (note: no fixed-text step, and `??`
keeps empty strings). -/
def labelTextForGeo (entry : OverlayEntry) (ov : Option OvMap)
    (props : PropMap) : Option String :=
  let prop := propOrCpname (entry.label.bind (·.prop))
  match overrideResult ov props prop with
  | some r => some r
  | none =>
    match props prop with
    | some v => some v
    | none => entry.name

/-! ### FeatureServer path: tracked layers and `updateLabels` -/

/-- The tooltip state the code manipulates: its content
(`setTooltipContent`) and whether it is open (`openTooltip`/`closeTooltip`). -/
structure Tooltip where
  content : String
  isOpen : Bool
  deriving DecidableEq

/-- A tracked per-feature layer of `addFeatureServerOverlay`: its GeoJSON
feature's properties (if the layer carries a feature at all) and its bound
tooltip, if any. -/
structure TrackedLayer where
  feature : Option PropMap
  tooltip : Option Tooltip

/-- The `shouldSkip` helper (main.js 497-501): false unless the rule has a
`skipValues` array and a truthy `prop`; otherwise whether the feature's
attribute value occurs in the list (an absent value never does, since
`includes` compares with strict equality against strings). -/
def shouldSkip (entry : OverlayEntry) (fp : PropMap) : Bool :=
  match entry.label with
  | none => false
  | some lc =>
    match lc.skipValues with
    | none => false
    | some sv =>
      match lc.prop with
      | none => false
      | some p =>
        if p = "" then false
        else
          match fp p with
          | some v => sv.contains v
          | none => false

/-- `minZoomForLabels` (main.js 470): the rule's `minZoom`, if configured. -/
def minZoomForLabels (entry : OverlayEntry) : Option ℚ :=
  entry.label.bind (·.minZoom)

/-- Clearing branch of `updateLabels` (main.js 508, 513): if a tooltip is
bound, set its content to `""` and close it. -/
def clearTooltip : Option Tooltip → Option Tooltip
  | none => none
  | some _ => some ⟨"", false⟩

/-- The body of `updateLabels` for one tracked layer (main.js 503-521):
clear when the feature is absent, skipped, or the zoom gate fails; otherwise
resolve the text, clearing on a falsy result and setting/opening the tooltip
on a truthy one. -/
def updateOne (entry : OverlayEntry) (ov : Option OvMap) (zoom : ℚ)
    (lyr : TrackedLayer) : TrackedLayer :=
  let zoomOK : Bool :=
    match minZoomForLabels entry with
    | none => true
    | some mz => decide (zoom ≥ mz)
  match lyr.feature with
  | none => { lyr with tooltip := clearTooltip lyr.tooltip }
  | some fp =>
    if shouldSkip entry fp || !zoomOK then
      { lyr with tooltip := clearTooltip lyr.tooltip }
    else
      match labelTextForFS entry ov fp with
      | some t =>
        if t = "" then { lyr with tooltip := clearTooltip lyr.tooltip }
        else
          match lyr.tooltip with
          | some _ => { lyr with tooltip := some ⟨t, true⟩ }
          | none => lyr
      | none => { lyr with tooltip := clearTooltip lyr.tooltip }

/-- A label annotation counts as visible when its tooltip is open with
non-empty content. -/
def visibleLabel (lyr : TrackedLayer) : Bool :=
  match lyr.tooltip with
  | some t => t.isOpen ∧ t.content ≠ ""
  | none => false

/-! ### Static-GeoJSON context path -/

/-- The two sub-layers of the static-GeoJSON context overlay (main.js
673-694). -/
inductive SubLayer where
  | casing
  | stroke
  deriving DecidableEq

/-- A per-feature layer tracked by `addContextCPAOverlayAsGeoJSON`: which
sub-layer created it, its feature properties, and its bound tooltip. -/
structure GeoTracked where
  sub : SubLayer
  props : PropMap
  tooltip : Option Tooltip

/-- The `onEach` callback (main.js 660-670) run for a feature added to one
sub-layer: register the layer and, if labeling is configured, bind a
permanent tooltip whose initial content is `labelTextFor(props) || ""`
(permanent tooltips open when the layer is on the map). -/
def mkGeoLayer (entry : OverlayEntry) (ov : Option OvMap) (sub : SubLayer)
    (props : PropMap) : GeoTracked :=
  { sub := sub
    props := props
    tooltip :=
      match entry.label with
      | some _ => some ⟨(labelTextForGeo entry ov props).getD "", true⟩
      | none => none }

/-- The `q.run` success callback (main.js 733-739): the same feature
collection is added to the casing layer and then to the stroke layer, each
addition registering per-feature layers through `onEach`. -/
def runQueryCallback (entry : OverlayEntry) (ov : Option OvMap)
    (fc : List PropMap) : List GeoTracked :=
  fc.map (mkGeoLayer entry ov SubLayer.casing) ++
    fc.map (mkGeoLayer entry ov SubLayer.stroke)

/-- The body of the GeoJSON-path `group.refreshLabels` for one tracked layer
(main.js 710-719): resolve `labelTextFor(props) || ""` and, if a tooltip is
bound, set this content and open the tooltip — with no zoom check. -/
def refreshOneGeo (entry : OverlayEntry) (ov : Option OvMap)
    (lyr : GeoTracked) : GeoTracked :=
  let text := (labelTextForGeo entry ov lyr.props).getD ""
  match lyr.tooltip with
  | some _ => { lyr with tooltip := some ⟨text, true⟩ }
  | none => lyr

/-- `group.refreshLabels` over the whole tracked collection. -/
def refreshLabelsGeo (entry : OverlayEntry) (ov : Option OvMap)
    (tracked : List GeoTracked) : List GeoTracked :=
  tracked.map (refreshOneGeo entry ov)

/-! ### Concrete configuration entries (config.js) -/

/-- The `cpas-context` entry of `config.js` as far as labeling reads it:
`label: { prop: "cpname", minZoom: 12 }`, display name
"All Community Plans (context)". -/
def ctxEntry : OverlayEntry :=
  { id := "cpas-context"
    name := some "All Community Plans (context)"
    label := some { prop := some "cpname", minZoom := some 12 } }

/-- The `north-park` entry of `config.js`: `label: { prop: "cpname" }`,
display name "North Park Boundary". -/
def npEntry : OverlayEntry :=
  { id := "north-park"
    name := some "North Park Boundary"
    label := some { prop := some "cpname" } }

/-! ### Contrast profiles -/

/-- The path-style fields touched by the `setStyle` calls of
`applyContrastProfile`: stroke color/weight/opacity and fill
color/opacity.  `fillColor` is optional because the context styles never
set one. -/
structure PathStyle where
  color : String
  weight : ℚ
  opacity : ℚ
  fillColor : Option String
  fillOpacity : ℚ
  deriving DecidableEq

/-- Styles owned by one `addFeatureServerOverlay` group: the main layer and
the optional casing underlay (`casingLayer?.setStyle` is a no-op without
one). -/
structure OverlayStyles where
  layer : PathStyle
  casing : Option PathStyle
  deriving DecidableEq

/-- `layerGroup.applyContrastProfile` of `addFeatureServerOverlay` (main.js
568-602): fixed presets for the `north-park` and `cpas-context` identifiers,
chosen by `profile === "imagery"`; any other identifier changes nothing.
`setStyle` merges, so fields it does not mention are preserved. -/
def applyContrastProfileFS (id : String) (profile : String)
    (s : OverlayStyles) : OverlayStyles :=
  let s1 :=
    if id = "north-park" then
      if profile = "imagery" then
        { layer := { color := "#08519c", weight := 4, opacity := 1,
                     fillColor := some "#08519c", fillOpacity := 8/100 }
          casing := s.casing.map (fun c =>
            { c with color := "#ffffff", weight := 9, opacity := 1,
                     fillOpacity := 0 }) }
      else
        { layer := { color := "#08519c", weight := 3, opacity := 1,
                     fillColor := some "#08519c", fillOpacity := 6/100 }
          casing := s.casing.map (fun c =>
            { c with color := "#ffffff", weight := 7, opacity := 1,
                     fillOpacity := 0 }) }
    else s
  if id = "cpas-context" then
    if profile = "imagery" then
      { layer := { s1.layer with
                   color := "#111827", weight := 3, opacity := 1,
                   fillOpacity := 0 }
        casing := s1.casing.map (fun c =>
          { c with color := "#ffffff", weight := 5, opacity := 95/100,
                   fillOpacity := 0 }) }
    else
      { layer := { s1.layer with
                   color := "#1f2937", weight := 225/100, opacity := 1,
                   fillOpacity := 0 }
        casing := s1.casing.map (fun c =>
          { c with color := "#ffffff", weight := 4, opacity := 1/2,
                   fillOpacity := 0 }) }
  else s1

/-- Styles of the static-GeoJSON context group: stroke overlay and casing
underlay (both always present, main.js 673-694). -/
structure GeoStyles where
  stroke : PathStyle
  casing : PathStyle
  deriving DecidableEq

/-- `group.applyContrastProfile` of `addContextCPAOverlayAsGeoJSON`
(main.js 699-707). -/
def applyContrastProfileGeo (profile : String) (s : GeoStyles) : GeoStyles :=
  if profile = "imagery" then
    { stroke := { s.stroke with
                  color := "#111827", weight := 3, opacity := 1,
                  fillOpacity := 0 }
      casing := { s.casing with
                  color := "#ffffff", weight := 5, opacity := 95/100,
                  fillOpacity := 0 } }
  else
    { stroke := { s.stroke with
                  color := "#1f2937", weight := 225/100, opacity := 1,
                  fillOpacity := 0 }
      casing := { s.casing with
                  color := "#ffffff", weight := 4, opacity := 1/2,
                  fillOpacity := 0 } }

/-! ### Basemap coordinator -/

/-- The map state the coordinator reads and writes: whether the SANDAG
imagery basemap, the Dark Gray Canvas basemap, and the imagery vector
reference overlay are currently on the map (`map.hasLayer`). -/
structure BasemapState where
  sandagOn : Bool
  darkOn : Bool
  refOn : Bool
  deriving DecidableEq

/-- `syncImageryRefs` (main.js 811-818): add the vector reference exactly
when the imagery basemap is on the map, remove it otherwise, each guarded by
a `hasLayer` check. -/
def syncImageryRefs (st : BasemapState) : BasemapState :=
  if st.sandagOn then
    if !st.refOn then { st with refOn := true } else st
  else
    if st.refOn then { st with refOn := false } else st

/-- `currentProfile` (main.js 821-823): imagery or Dark Gray active means
"imagery", anything else means "light". -/
def currentProfile (st : BasemapState) : String :=
  if st.sandagOn || st.darkOn then "imagery" else "light"

/-- A registered overlay controller in `OVERLAYS`: either a FeatureServer
group (with its config identifier) or the static-GeoJSON context group. -/
inductive Controller where
  | fs (id : String) (s : OverlayStyles)
  | geo (s : GeoStyles)
  deriving DecidableEq

/-- `g?.applyContrastProfile?.(profile)` on one registered controller. -/
def applyController (profile : String) : Controller → Controller
  | .fs id s => .fs id (applyContrastProfileFS id profile s)
  | .geo s => .geo (applyContrastProfileGeo profile s)

/-- `applyProfileToAll` (main.js 824-826). -/
def applyProfileToAll (profile : String) (reg : List Controller) :
    List Controller :=
  reg.map (applyController profile)

/-- The `baselayerchange` handler (main.js 832-835): sync the reference
overlay, then apply the freshly derived profile to every registered
controller. -/
def onBaselayerChange (st : BasemapState) (reg : List Controller) :
    BasemapState × List Controller :=
  let st2 := syncImageryRefs st
  (st2, applyProfileToAll (currentProfile st2) reg)

/-! ### Label-override loader as a fallible pipeline -/

/-- Outcome of the bootstrap override load: the dictionary, if the chain
reached the assignment to `window.CPA_LABEL_OVERRIDES`, and whether the
`.catch` handler logged a failure. -/
structure LoaderResult where
  overrides : Option OvMap
  logged : Bool

/-- The bootstrap `fetch("data/cpa-labels.csv")` promise chain (main.js
838-861).  The input is the outcome of fetching and reading the response
text; `.then` propagates failures to the single `.catch`, which logs and
completes normally, leaving the override dictionary unset. -/
def fetchChain (res : Except String String) : Except String LoaderResult :=
  let step : Except String LoaderResult :=
    match res with
    | .error e => .error e
    | .ok text => .ok { overrides := some (parseOverridesCSV text), logged := false }
  match step with
  | .error _ => .ok { overrides := none, logged := true }
  | .ok r => .ok r

/-! ### Concrete fixtures used by witnesses and counterexamples -/

/-- Properties of a context feature named GOLDEN HILL. -/
def ghProps : PropMap :=
  fun k => if k = "cpname" then some "GOLDEN HILL" else none

/-- Properties of the GREATER NORTH PARK context feature. -/
def gnpProps : PropMap :=
  fun k => if k = "cpname" then some "GREATER NORTH PARK" else none

/-- An override dictionary with the repository's Greater North Park entry. -/
def gnpOv : OvMap :=
  ovInsert ovEmpty "GREATER NORTH PARK" "Greater|North Park"

/-- An override dictionary whose stored label column is empty. -/
def emptyOvGH : OvMap :=
  ovInsert ovEmpty "GOLDEN HILL" ""

/-! ### Helper lemmas about label resolution -/

/-- When the override dictionary is set and holds a non-empty value under
the feature's uppercased attribute value, the FeatureServer `labelTextFor`
for the context overlay returns it with pipes replaced by newlines. -/
lemma labelTextForFS_override (entry : OverlayEntry) (m : OvMap) (fp : PropMap)
    (v : String) (hid : entry.id = "cpas-context")
    (hv : m (jsUpper ((fp (propOrCpname (entry.label.bind (·.prop)))).getD "")) = some v)
    (hne : v ≠ "") :
    labelTextForFS entry (some m) fp = some (replPipes v) := by
  simp [labelTextForFS, overrideResult, hid, hv, hne]

/-- Same fact for the GeoJSON-path `labelTextFor`, which applies overrides
for any entry. -/
lemma labelTextForGeo_override (entry : OverlayEntry) (m : OvMap) (props : PropMap)
    (v : String)
    (hv : m (jsUpper ((props (propOrCpname (entry.label.bind (·.prop)))).getD "")) = some v)
    (hne : v ≠ "") :
    labelTextForGeo entry (some m) props = some (replPipes v) := by
  simp [labelTextForGeo, overrideResult, hv, hne]

/-- When the dictionary has no usable entry for the feature (missing key or
empty stored value), the FeatureServer `labelTextFor` runs its fallback
chain. -/
lemma labelTextForFS_no_override (entry : OverlayEntry) (m : OvMap) (fp : PropMap)
    (hv : (m (jsUpper ((fp (propOrCpname (entry.label.bind (·.prop)))).getD ""))).getD "" = "") :
    labelTextForFS entry (some m) fp = labelFallback entry fp := by
  unfold labelTextForFS overrideResult
  rcases h : m (jsUpper ((fp (propOrCpname (entry.label.bind (·.prop)))).getD "")) with _ | o
  · simp [h]
  · rw [h] at hv
    simp at hv
    simp [h, hv]

/-- With `window.CPA_LABEL_OVERRIDES` never set, the FeatureServer
`labelTextFor` is exactly its fallback chain. -/
lemma labelTextForFS_absent (entry : OverlayEntry) (fp : PropMap) :
    labelTextForFS entry none fp = labelFallback entry fp := by
  simp [labelTextForFS, overrideResult]

/-- First fallback tier: a configured, non-empty `prop` whose value is
present wins. -/
lemma labelFallback_attr (id : String) (name : Option String) (lr : LabelRule)
    (fp : PropMap) (p v : String) (hp : lr.prop = some p) (hpne : p ≠ "")
    (hv : fp p = some v) :
    labelFallback ⟨id, name, some lr⟩ fp = some v := by
  simp [labelFallback, propOrCpname, hp, hpne, strTruthy, hv]

/-- Second fallback tier: with the attribute tier unavailable, a truthy
fixed `text` wins. -/
lemma labelFallback_text (id : String) (name : Option String) (lr : LabelRule)
    (fp : PropMap) (t : String)
    (hattr : strTruthy lr.prop = false ∨ fp (propOrCpname lr.prop) = none)
    (ht : lr.text = some t) (htne : t ≠ "") :
    labelFallback ⟨id, name, some lr⟩ fp = some t := by
  rcases hattr with h | h <;>
  · simp only [labelFallback, Option.some_bind, h, ht]
    simp [strTruthy, htne]

/-- Last fallback tier: with both earlier tiers unavailable the result is
`entry.name || null`. -/
lemma labelFallback_name (id : String) (name : Option String) (lr : LabelRule)
    (fp : PropMap)
    (hattr : strTruthy lr.prop = false ∨ fp (propOrCpname lr.prop) = none)
    (ht : strTruthy lr.text = false) :
    labelFallback ⟨id, name, some lr⟩ fp =
      match name with
      | some n => if n = "" then none else some n
      | none => none := by
  rcases hattr with h | h <;>
  · simp only [labelFallback, Option.some_bind, h, ht]
    simp

/-! ### Helper lemmas about the CSV row fold -/

/-- Unfolding one step of the row loop. -/
lemma parseRowsFrom_cons (m : OvMap) (r : String) (rows : List String) :
    parseRowsFrom m (r :: rows) =
      parseRowsFrom
        (match rowEntry r with
         | none => m
         | some kv => ovInsert m kv.1 kv.2)
        rows := rfl

/-- The row loop processes concatenated row lists in sequence. -/
lemma parseRowsFrom_append (m : OvMap) (xs ys : List String) :
    parseRowsFrom m (xs ++ ys) = parseRowsFrom (parseRowsFrom m xs) ys := by
  simp [parseRowsFrom, List.foldl_append]

/-- Rows none of which produce the key `k` leave the binding of `k`
untouched. -/
lemma parseRowsFrom_no_key (m : OvMap) (rows : List String) (k : String)
    (h : ∀ r ∈ rows, ∀ kv, rowEntry r = some kv → kv.1 ≠ k) :
    parseRowsFrom m rows k = m k := by
  induction rows generalizing m with
  | nil => rfl
  | cons r rows ih =>
    have hrest : ∀ r2 ∈ rows, ∀ kv, rowEntry r2 = some kv → kv.1 ≠ k :=
      fun r2 h2 => h r2 (List.mem_cons_of_mem r h2)
    rw [parseRowsFrom_cons]
    rcases he : rowEntry r with _ | kv
    · exact ih m hrest
    · rw [ih _ hrest]
      have hk : kv.1 ≠ k := h r (List.mem_cons_self r rows) kv he
      have hk2 : k ≠ kv.1 := fun h2 => hk h2.symm
      simp [ovInsert, hk2]

/-- The row loop never removes a binding: a present key stays present. -/
lemma parseRowsFrom_isSome_mono (m : OvMap) (rows : List String) (k : String)
    (h : (m k).isSome = true) : ((parseRowsFrom m rows) k).isSome = true := by
  induction rows generalizing m with
  | nil => exact h
  | cons r rows ih =>
    rw [parseRowsFrom_cons]
    rcases he : rowEntry r with _ | kv
    · exact ih m h
    · refine ih _ ?_
      by_cases hk : k = kv.1 <;> simp [ovInsert, hk, h]

/-! ### Claim theorems -/

/-- Claim C1 (code bug): the claim says a context-overlay feature's label
annotation is visible iff zoom ≥ 12 and the value is not suppressed.  The
bootstrap routes the `cpas-context` entry through
`addContextCPAOverlayAsGeoJSON`, whose label binding (`onEach`) and
`refreshLabels` never consult the rule's `minZoom`, so the label is bound
and opened regardless of zoom — while the `updateLabels` of the
FeatureServer path (which implements the configured gating) would clear the
same annotation at zoom 11. -/
theorem context_overlay_label_visible_below_min_zoom :
    (11 : ℚ) < 12 ∧
    minZoomForLabels ctxEntry = some 12 ∧
    (mkGeoLayer ctxEntry none SubLayer.stroke ghProps).tooltip =
      some ⟨"GOLDEN HILL", true⟩ ∧
    (refreshOneGeo ctxEntry none (mkGeoLayer ctxEntry none SubLayer.stroke ghProps)).tooltip =
      some ⟨"GOLDEN HILL", true⟩ ∧
    (updateOne ctxEntry none 11 ⟨some ghProps, some ⟨"GOLDEN HILL", true⟩⟩).tooltip =
      some ⟨"", false⟩ := by
  decide

/-- Claim C2: label text resolution is deterministic with precedence CSV
override (context overlay, uppercased attribute key, pipes to newlines) over
the rule's attribute value, over the rule's fixed text, over the overlay
display name; concretely, the Greater North Park override renders exactly
"Greater\nNorth Park". -/
theorem label_text_resolution_precedence :
    (∀ (entry : OverlayEntry) (m : OvMap) (fp : PropMap) (v : String),
        entry.id = "cpas-context" →
        m (jsUpper ((fp (propOrCpname (entry.label.bind (·.prop)))).getD "")) = some v →
        v ≠ "" →
        labelTextForFS entry (some m) fp = some (replPipes v)) ∧
    (∀ (entry : OverlayEntry) (m : OvMap) (fp : PropMap),
        (m (jsUpper ((fp (propOrCpname (entry.label.bind (·.prop)))).getD ""))).getD "" = "" →
        labelTextForFS entry (some m) fp = labelFallback entry fp) ∧
    (∀ (id : String) (name : Option String) (lr : LabelRule) (fp : PropMap) (p v : String),
        lr.prop = some p → p ≠ "" → fp p = some v →
        labelFallback ⟨id, name, some lr⟩ fp = some v) ∧
    (∀ (id : String) (name : Option String) (lr : LabelRule) (fp : PropMap) (t : String),
        (strTruthy lr.prop = false ∨ fp (propOrCpname lr.prop) = none) →
        lr.text = some t → t ≠ "" →
        labelFallback ⟨id, name, some lr⟩ fp = some t) ∧
    (∀ (id : String) (lr : LabelRule) (fp : PropMap) (n : String),
        (strTruthy lr.prop = false ∨ fp (propOrCpname lr.prop) = none) →
        strTruthy lr.text = false → n ≠ "" →
        labelFallback ⟨id, some n, some lr⟩ fp = some n) ∧
    labelTextForGeo ctxEntry (some gnpOv) gnpProps = some "Greater\nNorth Park" := by
  refine ⟨labelTextForFS_override, labelTextForFS_no_override, labelFallback_attr,
    labelFallback_text, ?_, by decide⟩
  intro id lr fp n hattr ht hn
  rw [labelFallback_name id (some n) lr fp hattr ht]
  simp [hn]

/-- Witness for C2: the precedence theorem applied to the Greater North
Park feature and override table of the repository's data. -/
theorem label_text_resolution_precedence_witness :
    labelTextForFS ctxEntry (some gnpOv) gnpProps = some "Greater\nNorth Park" ∧
    labelFallback ctxEntry gnpProps = some "GREATER NORTH PARK" :=
  ⟨label_text_resolution_precedence.1 ctxEntry gnpOv gnpProps "Greater|North Park"
     rfl (by decide) (by decide),
   label_text_resolution_precedence.2.2.1 "cpas-context"
     (some "All Community Plans (context)") { prop := some "cpname", minZoom := some 12 }
     gnpProps "cpname" "GREATER NORTH PARK" rfl (by decide) (by decide)⟩

/-- Claim C3 (counterexample): the claim says the finished mapping's value
has every `|` replaced by a newline, but the mapping stores the trimmed
second field verbatim; the pipe is still there, so the stored value differs
from its newline form. -/
theorem override_value_stored_verbatim_counterexample :
    parseOverridesCSV "CPNAME,LABEL\nGreater North Park, Greater | North Park"
        "GREATER NORTH PARK" = some "Greater | North Park" ∧
    replPipes "Greater | North Park" = "Greater\nNorth Park" ∧
    "Greater | North Park" ≠ "Greater\nNorth Park" := by
  decide

/-- Claim C3 (amended): a data row matched by the first-comma regex whose
key trims non-empty yields the entry whose key is the uppercased trimmed
first field and whose stored value is the trimmed remainder verbatim (last
such row wins on a repeated key, and the key is always present in the
finished mapping); rows the regex rejects — no comma, or an embedded line
terminator such as a lone `\r`, which `.` cannot cross — and rows with an
empty key produce no entry; the `|`-to-newline replacement is applied at
label-resolution time, not when the mapping is built. -/
theorem override_rows_mapping_amended :
    (∀ (line k2 v2 : String), splitFirstComma line = some (k2, v2) → jsTrim k2 ≠ "" →
        rowEntry line = some (jsUpper (jsTrim k2), jsTrim v2)) ∧
    (∀ (line : String), splitFirstComma line = none → rowEntry line = none) ∧
    (∀ (line : String), line.data.any isJsLineTerm = true → rowEntry line = none) ∧
    (∀ (line k2 v2 : String), splitFirstComma line = some (k2, v2) → jsTrim k2 = "" →
        rowEntry line = none) ∧
    (∀ (rows : List String) (r k v : String), r ∈ rows → rowEntry r = some (k, v) →
        ((parseRows rows) k).isSome = true) ∧
    (∀ (pre post : List String) (r k v : String),
        rowEntry r = some (k, v) →
        (∀ r2 ∈ post, ∀ kv, rowEntry r2 = some kv → kv.1 ≠ k) →
        parseRows (pre ++ r :: post) k = some v) ∧
    (∀ rows : List String,
        parseRows rows = parseRows (rows.filter (fun l => (rowEntry l).isSome))) ∧
    (∀ (entry : OverlayEntry) (m : OvMap) (props : PropMap) (v : String),
        m (jsUpper ((props (propOrCpname (entry.label.bind (·.prop)))).getD "")) = some v →
        v ≠ "" →
        labelTextForGeo entry (some m) props = some (replPipes v)) := by
  refine ⟨?_, ?_, ?_, ?_, ?_, ?_, ?_, labelTextForGeo_override⟩
  · intro line k2 v2 hs hk
    simp [rowEntry, hs, hk]
  · intro line hs
    simp [rowEntry, hs]
  · intro line h
    simp [rowEntry, splitFirstComma, h]
  · intro line k2 v2 hs hk
    simp [rowEntry, hs, hk]
  · intro rows r k v hmem hr
    obtain ⟨pre, post, rfl⟩ := List.append_of_mem hmem
    unfold parseRows
    rw [parseRowsFrom_append, parseRowsFrom_cons, hr]
    refine parseRowsFrom_isSome_mono _ post k ?_
    simp [ovInsert]
  · intro pre post r k v hr hpost
    unfold parseRows
    rw [parseRowsFrom_append, parseRowsFrom_cons, hr, parseRowsFrom_no_key _ post k hpost]
    simp [ovInsert]
  · intro rows
    unfold parseRows
    generalize ovEmpty = m
    induction rows generalizing m with
    | nil => rfl
    | cons r rows ih =>
      rcases he : rowEntry r with _ | kv
      · rw [List.filter_cons, parseRowsFrom_cons, he]
        simp [he, ih]
      · rw [List.filter_cons, parseRowsFrom_cons, he]
        simp only [he, Option.isSome_some, if_true]
        rw [parseRowsFrom_cons, he]
        exact ih _

/-- Witness for the amended C3: the last-write rule evaluated on a concrete
two-row CSV body, and a comma-bearing row with an embedded lone carriage
return (which the first-comma regex cannot match) producing no entry. -/
theorem override_rows_mapping_amended_witness :
    parseRows (["First Entry, kept"] ++ "Greater North Park, Greater|North Park" :: [])
      "GREATER NORTH PARK" = some "Greater|North Park" ∧
    rowEntry "A\rB,C" = none :=
  ⟨override_rows_mapping_amended.2.2.2.2.2.1 ["First Entry, kept"] []
     "Greater North Park, Greater|North Park" "GREATER NORTH PARK" "Greater|North Park"
     (by decide) (fun r2 h2 => absurd h2 (List.not_mem_nil r2)),
   override_rows_mapping_amended.2.2.1 "A\rB,C" (by decide)⟩

/-- Claim C4: on both known overlay identifiers (and on the GeoJSON context
group), applying the imagery profile and then the light profile restores
exactly the light-profile style values the overlay carried before the pair
of calls — stroke color, weight, opacity, fill color and opacity, and
casing color, weight and opacity alike. -/
theorem contrast_profile_light_roundtrip (s : OverlayStyles) (g : GeoStyles) :
    applyContrastProfileFS "north-park" "light"
        (applyContrastProfileFS "north-park" "imagery"
          (applyContrastProfileFS "north-park" "light" s)) =
      applyContrastProfileFS "north-park" "light" s ∧
    applyContrastProfileFS "cpas-context" "light"
        (applyContrastProfileFS "cpas-context" "imagery"
          (applyContrastProfileFS "cpas-context" "light" s)) =
      applyContrastProfileFS "cpas-context" "light" s ∧
    applyContrastProfileGeo "light"
        (applyContrastProfileGeo "imagery"
          (applyContrastProfileGeo "light" g)) =
      applyContrastProfileGeo "light" g := by
  obtain ⟨layer, casing⟩ := s
  cases casing <;> refine ⟨?_, ?_, ?_⟩ <;>
    simp [applyContrastProfileFS, applyContrastProfileGeo]

/-- Claim C5: the contrast profile is a pure function of the active
basemap — "imagery" exactly when the SANDAG imagery or Dark Gray Canvas
layer is on the map, "light" otherwise; the `baselayerchange` handler
applies that derived profile to every registered controller and puts the
imagery vector reference on the map exactly when the imagery basemap is the
active selection. -/
theorem profile_derivation_and_broadcast (st : BasemapState)
    (reg : List Controller) (i : ℕ) :
    ((currentProfile st = "imagery") ↔ (st.sandagOn || st.darkOn) = true) ∧
    ((currentProfile st = "light") ↔ (st.sandagOn || st.darkOn) = false) ∧
    ((onBaselayerChange st reg).2)[i]? =
      (reg[i]?).map (applyController (currentProfile st)) ∧
    (onBaselayerChange st reg).1.refOn = st.sandagOn ∧
    (onBaselayerChange st reg).1.sandagOn = st.sandagOn ∧
    (onBaselayerChange st reg).1.darkOn = st.darkOn := by
  obtain ⟨s, d, rf⟩ := st
  cases s <;> cases d <;> cases rf <;>
    simp [currentProfile, onBaselayerChange, syncImageryRefs, applyProfileToAll,
      List.getElem?_map]

/-- Claim C6: starting from a light basemap, switching to imagery and back
leaves the imagery reference overlay off the map, and the visibility sync
is idempotent. -/
theorem imagery_ref_absent_after_toggle (r : Bool) (st : BasemapState) :
    (syncImageryRefs ⟨false, false, r⟩).refOn = false ∧
    (syncImageryRefs
        { syncImageryRefs { (⟨false, false, r⟩ : BasemapState) with sandagOn := true } with
          sandagOn := false }).refOn = false ∧
    syncImageryRefs (syncImageryRefs st) = syncImageryRefs st := by
  obtain ⟨s, d, rf⟩ := st
  cases r <;> cases s <;> cases d <;> cases rf <;> decide

/-- Claim C7: any failure of the override-resource load is absorbed by the
promise chain's `.catch` (the chain always completes, logging the failure
and leaving the mapping unset), and with the mapping unset every label
lookup runs the fallback chain: attribute value, then fixed text, then
overlay name. -/
theorem override_load_failure_degrades (res : Except String String) :
    (fetchChain res).isOk = true ∧
    (∀ e, res = Except.error e → fetchChain res = Except.ok ⟨none, true⟩) ∧
    (∀ (entry : OverlayEntry) (fp : PropMap),
        labelTextForFS entry none fp = labelFallback entry fp) ∧
    (∀ (id : String) (name : Option String) (lr : LabelRule) (fp : PropMap) (p v : String),
        lr.prop = some p → p ≠ "" → fp p = some v →
        labelFallback ⟨id, name, some lr⟩ fp = some v) ∧
    (∀ (id : String) (name : Option String) (lr : LabelRule) (fp : PropMap) (t : String),
        (strTruthy lr.prop = false ∨ fp (propOrCpname lr.prop) = none) →
        lr.text = some t → t ≠ "" →
        labelFallback ⟨id, name, some lr⟩ fp = some t) ∧
    (∀ (id : String) (lr : LabelRule) (fp : PropMap) (n : String),
        (strTruthy lr.prop = false ∨ fp (propOrCpname lr.prop) = none) →
        strTruthy lr.text = false → n ≠ "" →
        labelFallback ⟨id, some n, some lr⟩ fp = some n) := by
  refine ⟨?_, ?_, labelTextForFS_absent, labelFallback_attr, labelFallback_text, ?_⟩
  · cases res <;> simp [fetchChain, Except.isOk, Except.toBool]
  · intro e he
    subst he
    simp [fetchChain]
  · intro id lr fp n hattr ht hn
    rw [labelFallback_name id (some n) lr fp hattr ht]
    simp [hn]

/-- Witness for C7: a failed fetch leaves the mapping unset, and the North
Park feature's label still resolves from its attribute. -/
theorem override_load_failure_degrades_witness :
    fetchChain (Except.error "cpa-labels.csv load failed") = Except.ok ⟨none, true⟩ ∧
    labelTextForFS npEntry none ghProps = some "GOLDEN HILL" :=
  ⟨(override_load_failure_degrades (Except.error "cpa-labels.csv load failed")).2.1
     "cpa-labels.csv load failed" rfl,
   by rw [(override_load_failure_degrades (Except.error "x")).2.2.1 npEntry ghProps]
      decide⟩

/-- Claim C8: `applyContrastProfile` leaves every style property of an
overlay untouched when the entry's identifier is neither "north-park" nor
"cpas-context", for any profile value. -/
theorem applyContrastProfile_unknown_id_noop (id profile : String)
    (s : OverlayStyles) (h1 : id ≠ "north-park") (h2 : id ≠ "cpas-context") :
    applyContrastProfileFS id profile s = s := by
  simp [applyContrastProfileFS, h1, h2]

/-- Witness for C8: a third-party overlay identifier is a no-op under both
profiles. -/
theorem applyContrastProfile_unknown_id_noop_witness :
    applyContrastProfileFS "streets" "imagery"
        ⟨⟨"#3388ff", 2, 1, none, 1/10⟩, none⟩ = ⟨⟨"#3388ff", 2, 1, none, 1/10⟩, none⟩ ∧
    applyContrastProfileFS "streets" "light"
        ⟨⟨"#3388ff", 2, 1, none, 1/10⟩, none⟩ = ⟨⟨"#3388ff", 2, 1, none, 1/10⟩, none⟩ :=
  ⟨applyContrastProfile_unknown_id_noop "streets" "imagery" _ (by decide) (by decide),
   applyContrastProfile_unknown_id_noop "streets" "light" _ (by decide) (by decide)⟩

/-- Claim C9: the static-GeoJSON context path adds every loaded feature to
both the casing and the stroke sub-layer, registers the two per-feature
layers separately in the tracked collection (two tracked layers per
feature), binds a permanent tooltip on each when labeling is configured,
and `refreshLabels` resolves the same text for both copies. -/
theorem geojson_context_registers_both_sublayers (entry : OverlayEntry)
    (ov : Option OvMap) (fc : List PropMap) (p : PropMap)
    (hlabel : entry.label.isSome = true) (hp : p ∈ fc) :
    (runQueryCallback entry ov fc).length = 2 * fc.length ∧
    mkGeoLayer entry ov SubLayer.casing p ∈ runQueryCallback entry ov fc ∧
    mkGeoLayer entry ov SubLayer.stroke p ∈ runQueryCallback entry ov fc ∧
    mkGeoLayer entry ov SubLayer.casing p ≠ mkGeoLayer entry ov SubLayer.stroke p ∧
    (mkGeoLayer entry ov SubLayer.casing p).tooltip.isSome = true ∧
    (mkGeoLayer entry ov SubLayer.stroke p).tooltip.isSome = true ∧
    (refreshOneGeo entry ov (mkGeoLayer entry ov SubLayer.casing p)).tooltip =
      (refreshOneGeo entry ov (mkGeoLayer entry ov SubLayer.stroke p)).tooltip := by
  obtain ⟨lr, hlr⟩ := Option.isSome_iff_exists.mp hlabel
  refine ⟨?_, ?_, ?_, ?_, ?_, ?_, ?_⟩
  · simp [runQueryCallback, two_mul]
  · simp [runQueryCallback]
    exact Or.inl ⟨p, hp, rfl⟩
  · simp [runQueryCallback]
    exact Or.inr ⟨p, hp, rfl⟩
  · intro hcontra
    have := congrArg GeoTracked.sub hcontra
    simp [mkGeoLayer] at this
  · simp [mkGeoLayer, hlr]
  · simp [mkGeoLayer, hlr]
  · simp [refreshOneGeo, mkGeoLayer, hlr]

/-- Witness for C9: the context entry with a one-feature collection yields
two tracked layers, including the casing copy. -/
theorem geojson_context_registers_both_sublayers_witness :
    (runQueryCallback ctxEntry none [ghProps]).length = 2 * [ghProps].length ∧
    mkGeoLayer ctxEntry none SubLayer.casing ghProps ∈
      runQueryCallback ctxEntry none [ghProps] :=
  ⟨(geojson_context_registers_both_sublayers ctxEntry none [ghProps] ghProps rfl (by simp)).1,
   (geojson_context_registers_both_sublayers ctxEntry none [ghProps] ghProps rfl (by simp)).2.1⟩

/-- Claim C10: an override entry whose stored value is the empty string is
ignored by both label resolvers — resolution proceeds exactly as if no
override table were set, so the feature's attribute value (then the later
tiers) decides the label; an empty label column can never blank a label. -/
theorem empty_override_value_ignored (entry : OverlayEntry) (m : OvMap)
    (props : PropMap)
    (h : m (jsUpper ((props (propOrCpname (entry.label.bind (·.prop)))).getD "")) = some "") :
    labelTextForGeo entry (some m) props = labelTextForGeo entry none props ∧
    labelTextForFS entry (some m) props = labelTextForFS entry none props ∧
    (∀ v, props (propOrCpname (entry.label.bind (·.prop))) = some v →
        labelTextForGeo entry (some m) props = some v) := by
  refine ⟨?_, ?_, ?_⟩
  · simp [labelTextForGeo, overrideResult, h]
  · by_cases hid : entry.id = "cpas-context" <;>
      simp [labelTextForFS, overrideResult, h, hid]
  · intro v hv
    have h2 : m (jsUpper v) = some "" := by
      rw [hv] at h
      simpa using h
    simp [labelTextForGeo, overrideResult, hv, h2]

/-- Witness for C10: an empty override row for GOLDEN HILL leaves its label
resolved from the attribute value. -/
theorem empty_override_value_ignored_witness :
    labelTextForGeo ctxEntry (some emptyOvGH) ghProps = some "GOLDEN HILL" := by
  refine (empty_override_value_ignored ctxEntry emptyOvGH ghProps ?_).2.2 "GOLDEN HILL" ?_ <;>
    decide

end NorthPark
